import Mathlib

/-!
Verification development for the KA repository (creative-design-platform AI
service).  The definitions below are a shallow embedding, translated from the
Python sources:

  - src/creative-design-platform/ai-service/src/services/base.py
      (JobTracker, RateLimiter, BaseAIService._validate_image_size)
  - src/creative-design-platform/ai-service/src/services/image_generation.py
      (ImageGenerationService.generate_images, _poll_prediction)
  - src/creative-design-platform/ai-service/src/services/text_generation.py
      (TextGenerationService.generate_text, _generate_single_text,
       _calculate_confidence_score)
  - src/creative-design-platform/ai-service/src/main.py (rate-limit dependency)
  - src/ai-service/app/utils/cache.py (Redis-backed check_rate_limit)

Modelling conventions: Python float values that carry progress, confidence
scores and timestamps become rationals; wall-clock instants used only for the
created_at / updated_at bookkeeping become abstract Nat ticks supplied by the
caller; the in-memory dict of the job tracker becomes an association list with
Python dict semantics (overwrite on existing key, append otherwise); raising
an exception becomes an Except / Option error value.
-/

/-- One record of JobTracker.jobs (base.py lines 123-135).  The metadata
mapping, which Python fills from arbitrary keyword arguments, is modelled as a
list of string pairs; no claim inspects its values. -/
structure JobRecord where
  job_id : String
  operation : String
  status : String
  progress : ℚ
  created_at : Nat
  updated_at : Nat
  result_url : Option String
  error_message : Option String
  metadata : List (String × String)
  deriving DecidableEq, Repr

/-- The JobTracker registry: the Python dict self.jobs keyed by job id. -/
abbrev Jobs := List (String × JobRecord)

/-- dict.get / `job_id in self.jobs` lookup: first entry with the given key. -/
def get_job : Jobs → String → Option JobRecord
  | [], _ => none
  | (a, r) :: rest, k => if a = k then some r else get_job rest k

/-- Python dict assignment `self.jobs[job_id] = record`: overwrite the entry
if the key is present, otherwise append it. -/
def dict_assign (jobs : Jobs) (k : String) (v : JobRecord) : Jobs :=
  if (get_job jobs k).isSome then
    jobs.map (fun p => if p.1 = k then (p.1, v) else p)
  else jobs ++ [(k, v)]

/-- JobTracker.create_job (base.py lines 123-135): inserts a fresh record with
status pending, progress 0.0, created_at = updated_at = now. -/
def create_job (jobs : Jobs) (jobId operation : String)
    (metadata : List (String × String)) (now : Nat) : Jobs :=
  dict_assign jobs jobId
    { job_id := jobId
      operation := operation
      status := "pending"
      progress := 0
      created_at := now
      updated_at := now
      result_url := none
      error_message := none
      metadata := metadata }

/-- JobTracker.update_job (base.py lines 137-141): when job_id is present,
apply the keyword updates to the stored dict and refresh updated_at; when it
is absent, do nothing (the function body is guarded by `if job_id in
self.jobs`), returning normally.  The keyword-argument dict is modelled by the
record transformer `updates`. -/
def update_job (jobs : Jobs) (jobId : String) (updates : JobRecord → JobRecord)
    (now : Nat) : Jobs :=
  if (get_job jobs jobId).isSome then
    jobs.map (fun p =>
      if p.1 = jobId then (p.1, { updates p.2 with updated_at := now }) else p)
  else jobs

/-- JobTracker.set_job_processing (base.py lines 147-149). -/
def set_job_processing (jobs : Jobs) (jobId : String) (now : Nat)
    (progress : ℚ) : Jobs :=
  update_job jobs jobId
    (fun r => { r with status := "processing", progress := progress }) now

/-- JobTracker.set_job_completed (base.py lines 151-158). -/
def set_job_completed (jobs : Jobs) (jobId : String) (now : Nat)
    (resultUrl : String) : Jobs :=
  update_job jobs jobId
    (fun r => { r with
        status := "completed", progress := 100, result_url := some resultUrl })
    now

/-- JobTracker.set_job_failed (base.py lines 160-166). -/
def set_job_failed (jobs : Jobs) (jobId : String) (now : Nat)
    (errorMessage : String) : Jobs :=
  update_job jobs jobId
    (fun r => { r with status := "failed", error_message := some errorMessage })
    now

-- Helper lemmas about the registry.

theorem get_job_map_update (jobs : Jobs) (k : String) (r : JobRecord)
    (g : JobRecord → JobRecord) (h : get_job jobs k = some r) :
    get_job (jobs.map fun p => if p.1 = k then (p.1, g p.2) else p) k
      = some (g r) := by
  induction jobs with
  | nil => simp [get_job] at h
  | cons hd tl ih =>
    obtain ⟨a, b⟩ := hd
    rw [List.map_cons]
    by_cases hak : a = k
    · subst hak
      rw [get_job, if_pos rfl] at h
      obtain rfl : b = r := Option.some.inj h
      show get_job ((if a = a then (a, g b) else (a, b)) :: _) a = some (g b)
      rw [if_pos rfl]
      show get_job ((a, g b) :: _) a = some (g b)
      rw [get_job, if_pos rfl]
    · rw [get_job, if_neg hak] at h
      show get_job ((if a = k then (a, g b) else (a, b)) :: _) k = some (g r)
      rw [if_neg hak]
      show get_job ((a, b) :: _) k = some (g r)
      rw [get_job, if_neg hak]
      exact ih h

theorem get_job_update_self (jobs : Jobs) (k : String) (r : JobRecord)
    (f : JobRecord → JobRecord) (now : Nat) (h : get_job jobs k = some r) :
    get_job (update_job jobs k f now) k = some { f r with updated_at := now } := by
  unfold update_job
  rw [h]
  simpa using
    get_job_map_update jobs k r (fun x => { f x with updated_at := now }) h

/-- Claim C10: for every job_id not present in the registry, update_job and
the three setters built on it (set_job_processing, set_job_completed,
set_job_failed) return normally and leave the registry entirely unchanged:
no record is created and no existing record is modified.  (In the source the
whole body of update_job is guarded by `if job_id in self.jobs`; the function
is total, so returning normally is immediate.) -/
theorem update_job_unknown_id_noop (jobs : Jobs) (jobId : String)
    (f : JobRecord → JobRecord) (now : Nat) (p : ℚ) (u e : String)
    (h : get_job jobs jobId = none) :
    update_job jobs jobId f now = jobs ∧
    set_job_processing jobs jobId now p = jobs ∧
    set_job_completed jobs jobId now u = jobs ∧
    set_job_failed jobs jobId now e = jobs := by
  unfold set_job_processing set_job_completed set_job_failed update_job
  rw [h]
  simp

/-- Witness for update_job_unknown_id_noop at a concrete input: the empty
registry and the job id x. -/
theorem update_job_unknown_id_noop_witness :
    get_job [] "x" = none ∧
    (update_job [] "x" id 0 = [] ∧
     set_job_processing [] "x" 0 5 = [] ∧
     set_job_completed [] "x" 0 "u" = [] ∧
     set_job_failed [] "x" 0 "e" = []) :=
  ⟨rfl, update_job_unknown_id_noop [] "x" id 0 5 "u" "e" rfl⟩

/-- Claim C1 (the code contradicts it): terminal job states are NOT sticky in
JobTracker.  Concretely, create a job j, mark it completed, then call
set_job_processing on it: the status field regresses from completed back to
processing, because update_job (base.py lines 137-141) applies any update to
any existing record with no terminal-state guard.  The spec itself notes the
guard is absent from the source. -/
theorem terminal_state_not_sticky :
    (get_job (set_job_completed (create_job [] "j" "image_generation" [] 0)
        "j" 1 "http://res") "j").map JobRecord.status = some "completed" ∧
    (get_job (set_job_processing (set_job_completed
        (create_job [] "j" "image_generation" [] 0) "j" 1 "http://res")
        "j" 2 0) "j").map JobRecord.status = some "processing" := by
  constructor <;> rfl

/-- RateLimiter.check_rate_limit (base.py lines 95-114) for one identifier.
The per-identifier timestamp list self.requests[identifier] is the explicit
argument reqs; the state after the call is returned alongside the admission
verdict.  Faithful steps: first prune every timestamp with now - t not below
window_seconds (the list comprehension keeps t with now - req_time <
window_seconds and is assigned back to the dict before the limit test); then
reject if the remaining count is at least max_requests; otherwise append now
and admit. -/
def check_rate_limit (maxRequests : Nat) (windowSeconds : ℚ) (now : ℚ)
    (reqs : List ℚ) : Bool × List ℚ :=
  let pruned := reqs.filter (fun t => now - t < windowSeconds)
  if maxRequests ≤ pruned.length then
    (false, pruned)
  else
    (true, pruned ++ [now])


/-- A burst of consecutive check_rate_limit calls for one identifier, one call
per listed timestamp, threading the per-identifier state; returns the list of
verdicts in call order and the final state. -/
def burst_calls (maxRequests : Nat) (windowSeconds : ℚ) (reqs : List ℚ) :
    List ℚ → List Bool × List ℚ
  | [] => ([], reqs)
  | t :: ts =>
    ((check_rate_limit maxRequests windowSeconds t reqs).1 ::
       (burst_calls maxRequests windowSeconds
         (check_rate_limit maxRequests windowSeconds t reqs).2 ts).1,
     (burst_calls maxRequests windowSeconds
       (check_rate_limit maxRequests windowSeconds t reqs).2 ts).2)

theorem burst_calls_nil (maxRequests : Nat) (w : ℚ) (reqs : List ℚ) :
    burst_calls maxRequests w reqs [] = ([], reqs) := rfl

theorem burst_calls_cons (maxRequests : Nat) (w : ℚ) (reqs : List ℚ) (t : ℚ)
    (ts : List ℚ) :
    burst_calls maxRequests w reqs (t :: ts)
      = ((check_rate_limit maxRequests w t reqs).1 ::
           (burst_calls maxRequests w
             (check_rate_limit maxRequests w t reqs).2 ts).1,
         (burst_calls maxRequests w
           (check_rate_limit maxRequests w t reqs).2 ts).2) := rfl

theorem check_rate_limit_admit (maxRequests : Nat) (w now : ℚ) (reqs : List ℚ)
    (hfresh : ∀ t ∈ reqs, now - t < w) (hlen : reqs.length < maxRequests) :
    check_rate_limit maxRequests w now reqs = (true, reqs ++ [now]) := by
  unfold check_rate_limit
  have hfilter : reqs.filter (fun t => now - t < w) = reqs :=
    List.filter_eq_self.mpr (fun t ht => decide_eq_true (hfresh t ht))
  simp only [hfilter]
  rw [if_neg (by omega)]

theorem check_rate_limit_reject (maxRequests : Nat) (w now : ℚ) (reqs : List ℚ)
    (hfresh : ∀ t ∈ reqs, now - t < w) (hlen : maxRequests ≤ reqs.length) :
    check_rate_limit maxRequests w now reqs = (false, reqs) := by
  unfold check_rate_limit
  have hfilter : reqs.filter (fun t => now - t < w) = reqs :=
    List.filter_eq_self.mpr (fun t ht => decide_eq_true (hfresh t ht))
  simp only [hfilter]
  rw [if_pos hlen]

/-- Core burst lemma: processing the timestamp list ts from a state reqs of
already admitted timestamps, where the combined length is maxRequests + 1 and
every pair of involved timestamps lies within the window, the verdicts are
maxRequests - reqs.length admissions followed by one rejection, and the final
state is reqs plus all of ts except its last element. -/
theorem burst_calls_spec (maxRequests : Nat) (w : ℚ) :
    ∀ (ts : List ℚ) (reqs : List ℚ),
    reqs.length + ts.length = maxRequests + 1 →
    (∀ r ∈ reqs, ∀ t ∈ ts, t - r < w) →
    (∀ t ∈ ts, ∀ u ∈ ts, u - t < w) →
    ts ≠ [] →
    burst_calls maxRequests w reqs ts
      = (List.replicate (maxRequests - reqs.length) true ++ [false],
         reqs ++ ts.dropLast) := by
  intro ts
  induction ts with
  | nil => intro reqs _ _ _ hne; exact absurd rfl hne
  | cons t ts2 ih =>
    intro reqs hlen hold hwin _
    cases ts2 with
    | nil =>
      have hr : reqs.length = maxRequests := by
        simp only [List.length_cons, List.length_nil] at hlen
        omega
      have hstep : check_rate_limit maxRequests w t reqs = (false, reqs) :=
        check_rate_limit_reject maxRequests w t reqs
          (fun r hrr => hold r hrr t (by simp)) (le_of_eq hr.symm)
      rw [burst_calls_cons, hstep, burst_calls_nil]
      simp [hr]
    | cons t2 ts3 =>
      have hlt : reqs.length < maxRequests := by
        simp only [List.length_cons] at hlen
        omega
      have hstep : check_rate_limit maxRequests w t reqs = (true, reqs ++ [t]) :=
        check_rate_limit_admit maxRequests w t reqs
          (fun r hrr => hold r hrr t (by simp)) hlt
      have hlen2 : (reqs ++ [t]).length + (t2 :: ts3).length
          = maxRequests + 1 := by
        simp only [List.length_append, List.length_cons, List.length_nil]
          at hlen ⊢
        omega
      have hold2 : ∀ r ∈ reqs ++ [t], ∀ u ∈ t2 :: ts3, u - r < w := by
        intro r hrr u hu
        rcases List.mem_append.mp hrr with hrr | hrr
        · exact hold r hrr u (by simp [hu])
        · rcases List.mem_singleton.mp hrr with rfl
          exact hwin r (by simp) u (by simp [hu])
      have hwin2 : ∀ a ∈ t2 :: ts3, ∀ u ∈ t2 :: ts3, u - a < w := by
        intro a ha u hu
        exact hwin a (by simp [ha]) u (by simp [hu])
      have ihres := ih (reqs ++ [t]) hlen2 hold2 hwin2 (by simp)
      rw [burst_calls_cons, hstep, ihres]
      have hrep : maxRequests - reqs.length
          = (maxRequests - (reqs ++ [t]).length) + 1 := by
        simp only [List.length_append, List.length_cons, List.length_nil]
        omega
      rw [hrep, List.replicate_succ]
      simp [List.append_assoc, List.dropLast]

/-- Claim C3: with max_requests = N (N at least 1) and a burst of N + 1 calls
for one identifier whose timestamps all fall within window_seconds of each
other, exactly the first N calls are admitted and the last is rejected; and a
later call made after more than window_seconds have elapsed since each of the
admitted timestamps is admitted again. -/
theorem rate_limiter_burst_behaviour (maxRequests : Nat) (w later : ℚ)
    (ts : List ℚ)
    (hN : 1 ≤ maxRequests)
    (hlen : ts.length = maxRequests + 1)
    (hwin : ∀ t ∈ ts, ∀ u ∈ ts, u - t < w)
    (hlater : ∀ t ∈ ts.dropLast, w < later - t) :
    (burst_calls maxRequests w [] ts).1
      = List.replicate maxRequests true ++ [false] ∧
    (check_rate_limit maxRequests w later
        (burst_calls maxRequests w [] ts).2).1 = true := by
  have hne : ts ≠ [] := by
    intro h
    rw [h] at hlen
    simp at hlen
  have hspec := burst_calls_spec maxRequests w ts []
    (by simpa using hlen) (by simp) hwin hne
  have hstate : (burst_calls maxRequests w [] ts).2 = ts.dropLast := by
    rw [hspec]
    simp
  have hverdicts : (burst_calls maxRequests w [] ts).1
      = List.replicate maxRequests true ++ [false] := by
    rw [hspec]
    simp
  refine ⟨hverdicts, ?_⟩
  rw [hstate]
  have hempty : ts.dropLast.filter (fun t => later - t < w) = [] := by
    rw [List.filter_eq_nil_iff]
    intro t ht
    have h1 := hlater t ht
    simp only [decide_eq_true_eq]
    intro h2
    linarith
  unfold check_rate_limit
  simp only [hempty]
  rw [if_neg (by simp only [List.length_nil]; omega)]

/-- Witness for rate_limiter_burst_behaviour: N = 1, window 10, burst
timestamps 0 and 1, and a new call at time 20. -/
theorem rate_limiter_burst_behaviour_witness :
    (1 ≤ 1 ∧ ([(0 : ℚ), 1] : List ℚ).length = 1 + 1 ∧
     (∀ t ∈ [(0 : ℚ), 1], ∀ u ∈ [(0 : ℚ), 1], u - t < 10) ∧
     (∀ t ∈ ([(0 : ℚ), 1] : List ℚ).dropLast, (10 : ℚ) < 20 - t)) ∧
    ((burst_calls 1 10 [] [0, 1]).1 = List.replicate 1 true ++ [false] ∧
     (check_rate_limit 1 10 20 (burst_calls 1 10 [] [0, 1]).2).1 = true) :=
  ⟨⟨le_refl 1, rfl,
    by intro t ht u hu; fin_cases ht <;> fin_cases hu <;> norm_num,
    by intro t ht; fin_cases ht <;> norm_num⟩,
   rate_limiter_burst_behaviour 1 10 20 [0, 1] (le_refl 1) rfl
     (by intro t ht u hu; fin_cases ht <;> fin_cases hu <;> norm_num)
     (by intro t ht; fin_cases ht <;> norm_num)⟩

/-- Claim C9: a rejected rate-limit check consumes no quota.  Whenever
check_rate_limit returns false, the resulting per-identifier state is exactly
the pruned input list (expired timestamps removed, nothing appended), and in
particular a sublist of the state before the call; so repeated rejected calls
never push the admission time further out. -/
theorem check_rate_limit_reject_no_consume (maxRequests : Nat) (w now : ℚ)
    (reqs : List ℚ)
    (h : (check_rate_limit maxRequests w now reqs).1 = false) :
    (check_rate_limit maxRequests w now reqs).2
      = reqs.filter (fun t => now - t < w) ∧
    (check_rate_limit maxRequests w now reqs).2.Sublist reqs := by
  unfold check_rate_limit at h ⊢
  by_cases hif :
      maxRequests ≤ (reqs.filter (fun t => now - t < w)).length
  · rw [if_pos hif]
    exact ⟨rfl, List.filter_sublist reqs⟩
  · rw [if_neg hif] at h
    simp at h

/-- Witness for check_rate_limit_reject_no_consume: max_requests = 0 rejects
the call on the empty state. -/
theorem check_rate_limit_reject_no_consume_witness :
    (check_rate_limit 0 10 5 []).1 = false ∧
    ((check_rate_limit 0 10 5 []).2
        = List.filter (fun t => 5 - t < 10) [] ∧
     (check_rate_limit 0 10 5 []).2.Sublist []) :=
  ⟨rfl, check_rate_limit_reject_no_consume 0 10 5 [] rfl⟩

/-- Outcome of the Redis read performed by the rate-limit check in
src/ai-service/app/utils/cache.py: either there is no client at all
(redis_client is None), or the awaited get raises, or it returns the stored
counter (None when the key is absent, modelled by Option). -/
inductive RedisRead where
  | noClient
  | readFailure (msg : String)
  | value (current : Option Nat)
  deriving DecidableEq, Repr

namespace CacheUtils

/-- check_rate_limit (cache.py lines 150-161): without a Redis client return
True (allow); on an exception from the read return True; otherwise admit
exactly when int(current or 0) < limit. -/
def check_rate_limit (read : RedisRead) (limit : Nat) : Bool :=
  match read with
  | .noClient => true
  | .readFailure _ => true
  | .value current => current.getD 0 < limit

end CacheUtils

/-- Claim C8: the Redis-backed rate-limit check fails open.  For every limit,
if the state store is unavailable, whether because no Redis client is
configured or because the read raises, check_rate_limit returns admitted
(true) rather than rejecting the request. -/
theorem redis_rate_limit_fails_open (limit : Nat) (msg : String) :
    CacheUtils.check_rate_limit RedisRead.noClient limit = true ∧
    CacheUtils.check_rate_limit (RedisRead.readFailure msg) limit = true :=
  ⟨rfl, rfl⟩

/-- BaseAIService._validate_image_size (base.py lines 44-51): raise when a
dimension exceeds settings.max_image_size, then when a dimension is below
256; otherwise return normally.  The f-string error text is reproduced via
toString on the configured maximum. -/
def validate_image_size (maxSize width height : Nat) : Except String Unit :=
  if width > maxSize ∨ height > maxSize then
    Except.error ("Image dimensions cannot exceed "
      ++ toString maxSize ++ "x" ++ toString maxSize)
  else if width < 256 ∨ height < 256 then
    Except.error "Image dimensions must be at least 256x256"
  else Except.ok ()

/-- Job-tracker effects of ImageGenerationService.generate_images
(image_generation.py lines 189-286) up to and including dimension validation:
create_job runs first (line 196), _validate_image_size runs after it (line
213), and when validation raises, the except branch (line 284) marks the job
failed and re-raises; when validation passes, control continues with
set_job_processing(job_id, 10.0) (line 216).  The steps beyond this point
(external API call and polling) are modelled separately by the poller
definitions below and cannot run when validation has already raised, so this
definition suffices to decide where a validation error leaves the registry.
The first component is the raised error text, none when control flows on. -/
def generate_images_validation_path (maxSize width height : Nat)
    (jobId : String) (now : Nat) (jobs : Jobs) : Option String × Jobs :=
  let jobs1 := create_job jobs jobId "image_generation" [] now
  match validate_image_size maxSize width height with
  | Except.error e => (some e, set_job_failed jobs1 jobId now e)
  | Except.ok _ => (none, set_job_processing jobs1 jobId now 10)

/-- The rate-limit dependency of the FastAPI endpoints (main.py lines
113-121 together with the Depends wiring of generate_images, lines 176-205):
the dependency consults the shared RateLimiter before the endpoint body runs;
on rejection it raises HTTP 429 and the handler (and hence every JobTracker
call inside it) never executes.  The handler is abstracted as a state
transformer on the job registry returning an optional error. -/
def endpoint_with_rate_limit (maxRequests : Nat) (w now : ℚ)
    (clientReqs : List ℚ) (handler : Jobs → Option String × Jobs)
    (jobs : Jobs) : (Option String × Jobs) × List ℚ :=
  if (check_rate_limit maxRequests w now clientReqs).1 then
    (handler jobs, (check_rate_limit maxRequests w now clientReqs).2)
  else
    ((some "Rate limit exceeded. Please try again later.", jobs),
     (check_rate_limit maxRequests w now clientReqs).2)

/-- Counterexample to claim C2 as stated: a request whose dimensions fail
validation (width 100 is below the 256 minimum) does NOT leave the job
registry without a new record.  Starting from the empty registry, running
generate_images up to the validation error leaves a freshly created record
for the job, marked failed, because create_job executes before
_validate_image_size. -/
theorem validation_error_creates_job_record :
    (generate_images_validation_path 2048 100 1024 "j" 0 []).1
      = some "Image dimensions must be at least 256x256" ∧
    (get_job (generate_images_validation_path 2048 100 1024 "j" 0 []).2 "j").map
        JobRecord.status = some "failed" := by
  constructor <;> rfl


theorem get_job_append_self (jobs : Jobs) (k : String) (v : JobRecord)
    (h : get_job jobs k = none) :
    get_job (jobs ++ [(k, v)]) k = some v := by
  induction jobs with
  | nil => simp [get_job]
  | cons hd tl ih =>
    obtain ⟨a, b⟩ := hd
    by_cases hak : a = k
    · rw [get_job, if_pos hak] at h
      exact absurd h (by simp)
    · rw [get_job, if_neg hak] at h
      rw [List.cons_append, get_job, if_neg hak]
      exact ih h

theorem get_job_create_fresh (jobs : Jobs) (jobId operation : String)
    (md : List (String × String)) (now : Nat)
    (h : get_job jobs jobId = none) :
    get_job (create_job jobs jobId operation md now) jobId = some
      { job_id := jobId
        operation := operation
        status := "pending"
        progress := 0
        created_at := now
        updated_at := now
        result_url := none
        error_message := none
        metadata := md } := by
  unfold create_job dict_assign
  rw [h]
  simp only [Option.isSome_none, Bool.false_eq_true, if_false]
  exact get_job_append_self jobs jobId _ h

/-- Claim C2 amended: rate-limit rejections are detected before any Job
Tracker entry is created and leave the registry unchanged, but validation
errors are detected only after create_job has run, so after a validation
error the registry holds a new record for the request (marked failed by the
exception handler) rather than no new record. -/
theorem error_ordering_vs_job_registry (maxRequests : Nat) (w now : ℚ)
    (clientReqs : List ℚ) (handler : Jobs → Option String × Jobs)
    (jobs : Jobs) (maxSize width height : Nat) (jobId : String) (tick : Nat)
    (e : String)
    (hreject : (check_rate_limit maxRequests w now clientReqs).1 = false)
    (hfresh : get_job jobs jobId = none)
    (hinvalid : validate_image_size maxSize width height = Except.error e) :
    (endpoint_with_rate_limit maxRequests w now clientReqs handler jobs).1
      = (some "Rate limit exceeded. Please try again later.", jobs) ∧
    (get_job (generate_images_validation_path maxSize width height jobId
        tick jobs).2 jobId).map JobRecord.status = some "failed" := by
  constructor
  · unfold endpoint_with_rate_limit
    rw [hreject]
    simp
  · unfold generate_images_validation_path
    rw [hinvalid]
    have hcreated :=
      get_job_create_fresh jobs jobId "image_generation" [] tick hfresh
    have hfailed := get_job_update_self _ jobId _
      (fun r => { r with status := "failed", error_message := some e })
      tick hcreated
    show (get_job (set_job_failed
        (create_job jobs jobId "image_generation" [] tick) jobId tick e)
        jobId).map JobRecord.status = some "failed"
    unfold set_job_failed
    rw [hfailed]
    rfl

/-- Witness for error_ordering_vs_job_registry: max_requests = 0 so the
limiter rejects on empty state, the empty starting registry, and the
under-sized width 100. -/
theorem error_ordering_vs_job_registry_witness :
    ((check_rate_limit 0 60 0 []).1 = false ∧
     get_job [] "j" = none ∧
     validate_image_size 2048 100 1024
       = Except.error "Image dimensions must be at least 256x256") ∧
    ((endpoint_with_rate_limit 0 60 0 [] (fun js => (none, js)) []).1
       = (some "Rate limit exceeded. Please try again later.", []) ∧
     (get_job (generate_images_validation_path 2048 100 1024 "j" 0 []).2
         "j").map JobRecord.status = some "failed") :=
  ⟨⟨rfl, rfl, rfl⟩,
   error_ordering_vs_job_registry 0 60 0 [] (fun js => (none, js)) []
     2048 100 1024 "j" 0 "Image dimensions must be at least 256x256"
     rfl rfl rfl⟩

/-- One outcome of a poll attempt in _poll_prediction (image_generation.py
lines 288-329): the parsed prediction status from Replicate, the catch-all
branch for any other status string, or an httpx.HTTPError raised by the GET
itself (swallowed and retried by the loop).  succeeded carries the optional
output list (the code returns `prediction output or []`); failed carries the
optional provider error string (the code reads it with a default). -/
inductive PredStatus where
  | succeeded (output : Option (List String))
  | failed (errMsg : Option String)
  | starting
  | processing
  | unknownStatus (tag : String)
  | httpError (msg : String)
  deriving DecidableEq, Repr

/-- Result of the polling loop: the returned output URLs, the exception
raised on a failed prediction, or the timeout exception after max_retries. -/
inductive PollResult where
  | ok (urls : List String)
  | providerFailure (msg : String)
  | timeout
  deriving DecidableEq, Repr

/-- A poll attempt outcome is terminal when the prediction reports succeeded
or failed. -/
def PredStatus.isTerminal : PredStatus → Bool
  | .succeeded _ => true
  | .failed _ => true
  | _ => false

/-- The progress estimate written on a starting/processing attempt
(image_generation.py line 312): min(50.0 + (retry_count / max_retries) *
45.0, 95.0). -/
def pollProgress (retryCount maxRetries : Nat) : ℚ :=
  min (50 + ((retryCount : ℚ) / (maxRetries : ℚ)) * 45) 95

/-- Bookkeeping helper: pass a loop result through while counting one more
invocation of the status fetch. -/
def bump_fetch_count (x : PollResult × Jobs × Nat) : PollResult × Jobs × Nat :=
  (x.1, x.2.1, x.2.2 + 1)

/-- The while loop of _poll_prediction (image_generation.py lines 290-329).
fetch abstracts the GET of the prediction status; because retry_count is
incremented exactly once per loop iteration and every iteration performs one
fetch, the iteration with counter value r performs fetch number r, so fetch
is indexed by the current retry_count.  The third component of the result
counts the fetch invocations performed.  On succeeded the code calls
set_job_processing(job_id, 100.0) and returns the output; on failed it
raises; on starting/processing it writes the interpolated progress estimate
and continues; on any other status, or on an HTTP error from the GET itself,
it just sleeps and continues.  The updated_at tick passed to the tracker is
the attempt index.  After max_retries iterations without a terminal status
the loop exits and the timeout exception is raised. -/
def pollLoop (fetch : Nat → PredStatus) (jobId : String)
    (maxRetries retryCount : Nat) (jobs : Jobs) : PollResult × Jobs × Nat :=
  if retryCount < maxRetries then
    match fetch retryCount with
    | .succeeded output =>
      (.ok (output.getD []),
       set_job_processing jobs jobId retryCount 100, 1)
    | .failed errMsg =>
      (.providerFailure
         ("Generation failed: " ++ errMsg.getD "Generation failed"), jobs, 1)
    | .starting =>
      bump_fetch_count (pollLoop fetch jobId maxRetries (retryCount + 1)
        (set_job_processing jobs jobId retryCount
          (pollProgress retryCount maxRetries)))
    | .processing =>
      bump_fetch_count (pollLoop fetch jobId maxRetries (retryCount + 1)
        (set_job_processing jobs jobId retryCount
          (pollProgress retryCount maxRetries)))
    | .unknownStatus _ =>
      bump_fetch_count (pollLoop fetch jobId maxRetries (retryCount + 1) jobs)
    | .httpError _ =>
      bump_fetch_count (pollLoop fetch jobId maxRetries (retryCount + 1) jobs)
  else (.timeout, jobs, 0)
termination_by maxRetries - retryCount
decreasing_by all_goals omega

/-- _poll_prediction with the hardcoded budget max_retries = 60
(image_generation.py line 290) and retry_count starting at 0. -/
def pollPrediction (fetch : Nat → PredStatus) (jobId : String) (jobs : Jobs) :
    PollResult × Jobs × Nat :=
  pollLoop fetch jobId 60 0 jobs

theorem get_job_set_processing (jobs : Jobs) (k : String) (r : JobRecord)
    (now : Nat) (p : ℚ) (h : get_job jobs k = some r) :
    get_job (set_job_processing jobs k now p) k
      = some
          { r with
            status := "processing"
            progress := p
            updated_at := now } := by
  unfold set_job_processing
  exact get_job_update_self jobs k r _ now h

theorem pollLoop_stop (fetch : Nat → PredStatus) (jobId : String)
    (maxRetries retryCount : Nat) (jobs : Jobs)
    (h : ¬ retryCount < maxRetries) :
    pollLoop fetch jobId maxRetries retryCount jobs
      = (PollResult.timeout, jobs, 0) := by
  unfold pollLoop
  rw [if_neg h]

theorem pollLoop_succeeded (fetch : Nat → PredStatus) (jobId : String)
    (maxRetries retryCount : Nat) (jobs : Jobs) (output : Option (List String))
    (h : retryCount < maxRetries)
    (hf : fetch retryCount = PredStatus.succeeded output) :
    pollLoop fetch jobId maxRetries retryCount jobs
      = (PollResult.ok (output.getD []),
         set_job_processing jobs jobId retryCount 100, 1) := by
  unfold pollLoop
  rw [if_pos h, hf]

theorem pollLoop_processing (fetch : Nat → PredStatus) (jobId : String)
    (maxRetries retryCount : Nat) (jobs : Jobs)
    (h : retryCount < maxRetries)
    (hf : fetch retryCount = PredStatus.processing) :
    pollLoop fetch jobId maxRetries retryCount jobs
      = bump_fetch_count (pollLoop fetch jobId maxRetries (retryCount + 1)
          (set_job_processing jobs jobId retryCount
            (pollProgress retryCount maxRetries))) := by
  conv_lhs => unfold pollLoop
  rw [if_pos h, hf]

theorem pollLoop_starting (fetch : Nat → PredStatus) (jobId : String)
    (maxRetries retryCount : Nat) (jobs : Jobs)
    (h : retryCount < maxRetries)
    (hf : fetch retryCount = PredStatus.starting) :
    pollLoop fetch jobId maxRetries retryCount jobs
      = bump_fetch_count (pollLoop fetch jobId maxRetries (retryCount + 1)
          (set_job_processing jobs jobId retryCount
            (pollProgress retryCount maxRetries))) := by
  conv_lhs => unfold pollLoop
  rw [if_pos h, hf]

theorem pollLoop_unknown (fetch : Nat → PredStatus) (jobId : String)
    (maxRetries retryCount : Nat) (jobs : Jobs) (tag : String)
    (h : retryCount < maxRetries)
    (hf : fetch retryCount = PredStatus.unknownStatus tag) :
    pollLoop fetch jobId maxRetries retryCount jobs
      = bump_fetch_count
          (pollLoop fetch jobId maxRetries (retryCount + 1) jobs) := by
  conv_lhs => unfold pollLoop
  rw [if_pos h, hf]

theorem pollLoop_httpError (fetch : Nat → PredStatus) (jobId : String)
    (maxRetries retryCount : Nat) (jobs : Jobs) (msg : String)
    (h : retryCount < maxRetries)
    (hf : fetch retryCount = PredStatus.httpError msg) :
    pollLoop fetch jobId maxRetries retryCount jobs
      = bump_fetch_count
          (pollLoop fetch jobId maxRetries (retryCount + 1) jobs) := by
  conv_lhs => unfold pollLoop
  rw [if_pos h, hf]

/-- Behaviour of the poll loop from counter j when the fetch returns
processing up to attempt k and succeeded at attempt k (k below the budget):
the loop returns the output, performs k + 1 - j further fetches, and leaves
the tracked job with progress 100. -/
theorem pollLoop_success_spec (fetch : Nat → PredStatus) (jobId : String)
    (maxRetries k : Nat) (out : Option (List String)) :
    ∀ (n j : Nat) (jobs : Jobs) (r0 : JobRecord), k - j = n → j ≤ k →
    k < maxRetries →
    (∀ i, j ≤ i → i < k → fetch i = PredStatus.processing) →
    fetch k = PredStatus.succeeded out →
    get_job jobs jobId = some r0 →
    (pollLoop fetch jobId maxRetries j jobs).1 = PollResult.ok (out.getD []) ∧
    (pollLoop fetch jobId maxRetries j jobs).2.2 = k + 1 - j ∧
    ∃ r, get_job (pollLoop fetch jobId maxRetries j jobs).2.1 jobId = some r ∧
      r.progress = 100 := by
  intro n
  induction n with
  | zero =>
    intro j jobs r0 hn hjk hk hproc hsucc hmem
    have hjeq : j = k := by omega
    subst hjeq
    rw [pollLoop_succeeded fetch jobId maxRetries j jobs out (by omega) hsucc]
    refine ⟨rfl, ?_, ?_⟩
    · show 1 = j + 1 - j
      omega
    · exact ⟨_, get_job_set_processing jobs jobId r0 j 100 hmem, rfl⟩
  | succ n ih =>
    intro j jobs r0 hn hjk hk hproc hsucc hmem
    have hjk2 : j < k := by omega
    have hfj : fetch j = PredStatus.processing := hproc j (le_refl j) hjk2
    rw [pollLoop_processing fetch jobId maxRetries j jobs (by omega) hfj]
    have hmem2 :=
      get_job_set_processing jobs jobId r0 j (pollProgress j maxRetries) hmem
    have hres := ih (j + 1) _ _ (by omega) (by omega) hk
      (fun i hi1 hi2 => hproc i (by omega) hi2) hsucc hmem2
    unfold bump_fetch_count
    refine ⟨hres.1, ?_, hres.2.2⟩
    have h2 := hres.2.1
    show (pollLoop fetch jobId maxRetries (j + 1)
      (set_job_processing jobs jobId j (pollProgress j maxRetries))).2.2 + 1
        = k + 1 - j
    rw [h2]
    omega

/-- Claim C4: when the status fetch reports processing for its first k
invocations (k below the budget of 60) and succeeded on the next one, the
poller returns the succeeded output, the fetch is invoked exactly k + 1
times, and at return the tracked job record shows progress = 100.0 (the
succeeded branch calls set_job_processing(job_id, 100.0) before
returning). -/
theorem poller_success_exact_invocations (fetch : Nat → PredStatus)
    (k : Nat) (out : Option (List String)) (jobId : String) (jobs : Jobs)
    (r0 : JobRecord)
    (hk : k < 60)
    (hproc : ∀ i, i < k → fetch i = PredStatus.processing)
    (hsucc : fetch k = PredStatus.succeeded out)
    (hmem : get_job jobs jobId = some r0) :
    (pollPrediction fetch jobId jobs).1 = PollResult.ok (out.getD []) ∧
    (pollPrediction fetch jobId jobs).2.2 = k + 1 ∧
    ∃ r, get_job (pollPrediction fetch jobId jobs).2.1 jobId = some r ∧
      r.progress = 100 := by
  have hres := pollLoop_success_spec fetch jobId 60 k out k 0 jobs r0
    (by omega) (by omega) hk (fun i _ hi => hproc i hi) hsucc hmem
  unfold pollPrediction
  refine ⟨hres.1, ?_, hres.2.2⟩
  have h2 := hres.2.1
  rw [h2]
  omega

/-- Witness for poller_success_exact_invocations: the fetch succeeds on its
very first invocation (k = 0) with one result URL, on a registry holding the
freshly created job j. -/
theorem poller_success_exact_invocations_witness :
    ((0 : Nat) < 60 ∧
     (fun _ : Nat => PredStatus.succeeded (some ["http://img"])) 0
       = PredStatus.succeeded (some ["http://img"]) ∧
     get_job (create_job [] "j" "image_generation" [] 0) "j"
       = some
           { job_id := "j"
             operation := "image_generation"
             status := "pending"
             progress := 0
             created_at := 0
             updated_at := 0
             result_url := none
             error_message := none
             metadata := [] }) ∧
    ((pollPrediction (fun _ => PredStatus.succeeded (some ["http://img"])) "j"
        (create_job [] "j" "image_generation" [] 0)).1
      = PollResult.ok ((some ["http://img"]).getD []) ∧
     (pollPrediction (fun _ => PredStatus.succeeded (some ["http://img"])) "j"
        (create_job [] "j" "image_generation" [] 0)).2.2 = 0 + 1 ∧
     ∃ r, get_job (pollPrediction
         (fun _ => PredStatus.succeeded (some ["http://img"])) "j"
         (create_job [] "j" "image_generation" [] 0)).2.1 "j" = some r ∧
       r.progress = 100) :=
  ⟨⟨by decide, rfl, rfl⟩,
   poller_success_exact_invocations
     (fun _ => PredStatus.succeeded (some ["http://img"])) 0
     (some ["http://img"]) "j" (create_job [] "j" "image_generation" [] 0)
     { job_id := "j"
       operation := "image_generation"
       status := "pending"
       progress := 0
       created_at := 0
       updated_at := 0
       result_url := none
       error_message := none
       metadata := [] }
     (by decide) (fun i hi => absurd hi (Nat.not_lt_zero i)) rfl rfl⟩

/-- Behaviour of the poll loop from counter j when no fetch ever reports a
terminal status: the loop exhausts the budget, returns timeout after
maxRetries - j further fetches, and the tracked job record (assumed present
and not completed when polling reaches this point) still is not completed,
since the loop only ever writes status processing. -/
theorem pollLoop_timeout_spec (fetch : Nat → PredStatus) (jobId : String)
    (maxRetries : Nat)
    (hterm : ∀ i, (fetch i).isTerminal = false) :
    ∀ (n j : Nat) (jobs : Jobs) (r0 : JobRecord), maxRetries - j = n →
    get_job jobs jobId = some r0 → r0.status ≠ "completed" →
    (pollLoop fetch jobId maxRetries j jobs).1 = PollResult.timeout ∧
    (pollLoop fetch jobId maxRetries j jobs).2.2 = maxRetries - j ∧
    ∃ r, get_job (pollLoop fetch jobId maxRetries j jobs).2.1 jobId = some r ∧
      r.status ≠ "completed" := by
  intro n
  induction n with
  | zero =>
    intro j jobs r0 hn hmem hst
    have hj : ¬ j < maxRetries := by omega
    rw [pollLoop_stop fetch jobId maxRetries j jobs hj]
    refine ⟨rfl, ?_, ⟨r0, hmem, hst⟩⟩
    show 0 = maxRetries - j
    omega
  | succ n ih =>
    intro j jobs r0 hn hmem hst
    have hj : j < maxRetries := by omega
    cases hfj : fetch j with
    | succeeded output =>
      have hcon := hterm j
      rw [hfj] at hcon
      simp [PredStatus.isTerminal] at hcon
    | failed errMsg =>
      have hcon := hterm j
      rw [hfj] at hcon
      simp [PredStatus.isTerminal] at hcon
    | starting =>
      rw [pollLoop_starting fetch jobId maxRetries j jobs hj hfj]
      have hmem2 :=
        get_job_set_processing jobs jobId r0 j (pollProgress j maxRetries) hmem
      have hres := ih (j + 1) _ _ (by omega) hmem2
        (by show ("processing" : String) ≠ "completed"; decide)
      unfold bump_fetch_count
      refine ⟨hres.1, ?_, hres.2.2⟩
      have h2 := hres.2.1
      show (pollLoop fetch jobId maxRetries (j + 1)
        (set_job_processing jobs jobId j (pollProgress j maxRetries))).2.2 + 1
          = maxRetries - j
      rw [h2]
      omega
    | processing =>
      rw [pollLoop_processing fetch jobId maxRetries j jobs hj hfj]
      have hmem2 :=
        get_job_set_processing jobs jobId r0 j (pollProgress j maxRetries) hmem
      have hres := ih (j + 1) _ _ (by omega) hmem2
        (by show ("processing" : String) ≠ "completed"; decide)
      unfold bump_fetch_count
      refine ⟨hres.1, ?_, hres.2.2⟩
      have h2 := hres.2.1
      show (pollLoop fetch jobId maxRetries (j + 1)
        (set_job_processing jobs jobId j (pollProgress j maxRetries))).2.2 + 1
          = maxRetries - j
      rw [h2]
      omega
    | unknownStatus tag =>
      rw [pollLoop_unknown fetch jobId maxRetries j jobs tag hj hfj]
      have hres := ih (j + 1) _ _ (by omega) hmem hst
      unfold bump_fetch_count
      refine ⟨hres.1, ?_, hres.2.2⟩
      have h2 := hres.2.1
      show (pollLoop fetch jobId maxRetries (j + 1) jobs).2.2 + 1
        = maxRetries - j
      rw [h2]
      omega
    | httpError msg =>
      rw [pollLoop_httpError fetch jobId maxRetries j jobs msg hj hfj]
      have hres := ih (j + 1) _ _ (by omega) hmem hst
      unfold bump_fetch_count
      refine ⟨hres.1, ?_, hres.2.2⟩
      have h2 := hres.2.1
      show (pollLoop fetch jobId maxRetries (j + 1) jobs).2.2 + 1
        = maxRetries - j
      rw [h2]
      omega

/-- Claim C5: when the status fetch never reports a terminal status
(succeeded or failed), the poller performs all 60 budgeted fetches and ends
in the timeout exception, and the tracked job record (present and not yet
completed when polling starts) is left in a non-completed state: the poller
itself never sets status completed. -/
theorem poller_timeout_non_completed (fetch : Nat → PredStatus)
    (jobId : String) (jobs : Jobs) (r0 : JobRecord)
    (hterm : ∀ i, (fetch i).isTerminal = false)
    (hmem : get_job jobs jobId = some r0)
    (hst : r0.status ≠ "completed") :
    (pollPrediction fetch jobId jobs).1 = PollResult.timeout ∧
    (pollPrediction fetch jobId jobs).2.2 = 60 ∧
    ∃ r, get_job (pollPrediction fetch jobId jobs).2.1 jobId = some r ∧
      r.status ≠ "completed" := by
  have hres := pollLoop_timeout_spec fetch jobId 60 hterm 60 0 jobs r0
    (by omega) hmem hst
  unfold pollPrediction
  refine ⟨hres.1, ?_, hres.2.2⟩
  have h2 := hres.2.1
  rw [h2]

/-- Witness for poller_timeout_non_completed: the fetch always reports
processing, on a registry holding the freshly created job j (status
pending). -/
theorem poller_timeout_non_completed_witness :
    ((∀ i : Nat, ((fun _ : Nat => PredStatus.processing) i).isTerminal
        = false) ∧
     get_job (create_job [] "j" "image_generation" [] 0) "j"
       = some
           { job_id := "j"
             operation := "image_generation"
             status := "pending"
             progress := 0
             created_at := 0
             updated_at := 0
             result_url := none
             error_message := none
             metadata := [] } ∧
     ("pending" : String) ≠ "completed") ∧
    ((pollPrediction (fun _ => PredStatus.processing) "j"
        (create_job [] "j" "image_generation" [] 0)).1
      = PollResult.timeout ∧
     (pollPrediction (fun _ => PredStatus.processing) "j"
        (create_job [] "j" "image_generation" [] 0)).2.2 = 60 ∧
     ∃ r, get_job (pollPrediction (fun _ => PredStatus.processing) "j"
         (create_job [] "j" "image_generation" [] 0)).2.1 "j" = some r ∧
       r.status ≠ "completed") :=
  ⟨⟨fun _ => rfl, rfl, by decide⟩,
   poller_timeout_non_completed (fun _ => PredStatus.processing) "j"
     (create_job [] "j" "image_generation" [] 0)
     { job_id := "j"
       operation := "image_generation"
       status := "pending"
       progress := 0
       created_at := 0
       updated_at := 0
       result_url := none
       error_message := none
       metadata := [] }
     (fun _ => rfl) rfl (by decide)⟩

/-- Claim C6: while the polled status is non-terminal, the progress value the
poller writes on the attempt with counter value retryCount (out of the budget
of 60) is exactly 50.0 + (retry_count / max_retries) * 45.0 — the min with
95.0 in the source never bites because the uncapped value stays at or below
50 + (59 / 60) * 45 — and this estimate is strictly below 100 on every
attempt before a terminal status.  The record written by the
starting/processing branch of the loop (set_job_processing with
pollProgress) therefore stores exactly that interpolated value. -/
theorem poller_progress_estimate (retryCount : Nat) (jobs : Jobs)
    (jobId : String) (r0 : JobRecord)
    (h : retryCount < 60)
    (hmem : get_job jobs jobId = some r0) :
    pollProgress retryCount 60 = 50 + ((retryCount : ℚ) / 60) * 45 ∧
    pollProgress retryCount 60 < 100 ∧
    ∃ r, get_job (set_job_processing jobs jobId retryCount
        (pollProgress retryCount 60)) jobId = some r ∧
      r.progress = 50 + ((retryCount : ℚ) / 60) * 45 ∧ r.progress < 100 := by
  have hle : (retryCount : ℚ) ≤ 59 := by
    have h59 : retryCount ≤ 59 := by omega
    exact_mod_cast h59
  have hlt95 : 50 + ((retryCount : ℚ) / 60) * 45 < 95 := by
    have hmul : ((retryCount : ℚ) / 60) * 45 = (retryCount : ℚ) * (3 / 4) := by
      ring
    rw [hmul]
    linarith
  have hval : pollProgress retryCount 60
      = 50 + ((retryCount : ℚ) / 60) * 45 := by
    unfold pollProgress
    rw [Nat.cast_ofNat]
    exact min_eq_left (le_of_lt hlt95)
  refine ⟨hval, by rw [hval]; linarith, ?_⟩
  refine ⟨_, get_job_set_processing jobs jobId r0 retryCount
    (pollProgress retryCount 60) hmem, ?_, ?_⟩
  · show pollProgress retryCount 60 = 50 + ((retryCount : ℚ) / 60) * 45
    exact hval
  · show pollProgress retryCount 60 < 100
    rw [hval]
    linarith

/-- Witness for poller_progress_estimate: attempt 0 on a registry holding the
freshly created job j; the stored estimate is 50. -/
theorem poller_progress_estimate_witness :
    ((0 : Nat) < 60 ∧
     get_job (create_job [] "j" "image_generation" [] 0) "j"
       = some
           { job_id := "j"
             operation := "image_generation"
             status := "pending"
             progress := 0
             created_at := 0
             updated_at := 0
             result_url := none
             error_message := none
             metadata := [] }) ∧
    (pollProgress 0 60 = 50 + ((0 : ℚ) / 60) * 45 ∧
     pollProgress 0 60 < 100 ∧
     ∃ r, get_job (set_job_processing (create_job [] "j" "image_generation"
         [] 0) "j" 0 (pollProgress 0 60)) "j" = some r ∧
       r.progress = 50 + ((0 : ℚ) / 60) * 45 ∧ r.progress < 100) :=
  ⟨⟨by decide, rfl⟩,
   poller_progress_estimate 0 (create_job [] "j" "image_generation" [] 0) "j"
     { job_id := "j"
       operation := "image_generation"
       status := "pending"
       progress := 0
       created_at := 0
       updated_at := 0
       result_url := none
       error_message := none
       metadata := [] }
     (by decide) rfl⟩

/-- Python str.strip() with no arguments (used by _generate_single_text,
text_generation.py line 289): remove leading and trailing whitespace
characters. -/
def strip_string (s : String) : String :=
  String.mk
    (((s.data.dropWhile Char.isWhitespace).reverse.dropWhile
      Char.isWhitespace).reverse)

/-- Python len(text.split()) (used by _calculate_confidence_score): the
number of maximal whitespace-separated runs in the text. -/
def word_count (s : String) : Nat :=
  (s.data.foldl
    (fun (acc : Nat × Bool) c =>
      if Char.isWhitespace c then (acc.1, false)
      else if acc.2 then acc else (acc.1 + 1, true))
    (0, false)).1

/-- _calculate_confidence_score (text_generation.py lines 293-312): base
score 0.8; +0.1 when the text length is within max_length, otherwise -0.2;
+0.05 for a format-appropriate word count; clamped to the interval 0..1.
Nothing in it alters the text. -/
def calculate_confidence_score (text : String) (maxLength : Nat)
    (formatType : String) : ℚ :=
  let base : ℚ := 8 / 10
  let withLen : ℚ :=
    if text.length ≤ maxLength then base + 1 / 10 else base - 2 / 10
  let withFormat : ℚ :=
    if formatType = "headline" ∧ word_count text ≤ 10 then withLen + 5 / 100
    else if formatType = "cta" ∧ word_count text ≤ 5 then withLen + 5 / 100
    else if formatType = "tagline" ∧ word_count text ≤ 8 then withLen + 5 / 100
    else withLen
  max 0 (min 1 withFormat)

/-- _generate_single_text (text_generation.py lines 262-291): the OpenAI
chat-completion content for the given variation index, stripped.  The
generator function gen abstracts the external model response per variation
index; no truncation of any kind is applied to its output. -/
def generate_single_text (gen : Nat → String) (variationIndex : Nat) : String :=
  strip_string (gen variationIndex)

/-- The variation texts returned by TextGenerationService.generate_text
(text_generation.py lines 175-205): one _generate_single_text call per index
in range(variation_count), then a stable sort by descending confidence score
(line 195, list.sort with key and reverse=True).  The sort permutes the
variations and alters none of the texts.  The job-tracker updates
interleaved in the source loop only touch the registry, never the texts, and
are modelled by the tracker definitions above. -/
def generate_text_variations (gen : Nat → String)
    (variationCount maxLength : Nat) (formatType : String) : List String :=
  ((List.range variationCount).map
    (fun i => generate_single_text gen i)).mergeSort
    (fun a b =>
      decide (calculate_confidence_score b maxLength formatType
        ≤ calculate_confidence_score a maxLength formatType))

/-- A text generator whose response always has 25 characters. -/
def overshoot_generator : Nat → String := fun _ => "abcdefghijklmnopqrstuvwxy"

/-- Claim C7 (the code contradicts it): with max_length = 20 and
variation_count = 3, when the underlying text generator returns a 25
character string, the service returns that 25 character variation as is:
neither _generate_single_text nor generate_text truncates or filters against
max_length (the limit only reaches the prompt text and the confidence
score), so a returned variation exceeds the requested limit. -/
theorem text_variation_exceeds_max_length :
    ∃ t ∈ generate_text_variations overshoot_generator 3 20 "body",
      20 < t.length := by
  refine ⟨"abcdefghijklmnopqrstuvwxy", ?_, by decide⟩
  unfold generate_text_variations
  rw [List.Perm.mem_iff (List.mergeSort_perm _ _)]
  decide
